import Mathlib

/-!
# The epoll reactor of `transport/TcpServer.h`

A shallow embedding of the event loop of `main` (lines 114-262 of
`src/transport/TcpServer.h`) and theorems about the dispatch of one ready event,
of one readiness batch, and of sequences of dispatches.

Modelling conventions.

* Descriptors and the results of system calls are C `int`s, modelled as `Int`.
  Event masks are `uint32_t`, modelled as `Nat` with `&&&`.
* `epoll_event.data.ptr` and `TzEventHandler.ptr` are addresses.  They are
  modelled as `Nat` indices into two stores, `World.handlers` (the
  `TzEventHandler` objects) and `World.ints` (the `int` counters).  The source
  places the handler of an accepted connection in a block-local variable; the
  address that variable occupies is not determined by the source, so it is an
  input of the dispatch (`Outcome.handler_addr`, `Outcome.cnt_addr`).
* What the operating system answers (the results of `accept`, `read`, `write`
  and whether the kernel is able to carry out an `epoll_ctl` request) is an
  input of the dispatch as well (`Outcome`).
* The kernel side of the epoll instance is the table `World.interest`.
* A dispatch returns the new world together with the list of calls it made, in
  program order.  Output written to `std::cout` is not recorded, except that
  the invocation of the handler callback (whose body only prints) is.
-/

namespace TcpServer

/-! ## Constants of `<sys/epoll.h>` and of the source -/

/-- The readable bit of an event mask (`EPOLLIN`, 0x001 in `<sys/epoll.h>`). -/
def EPOLLIN : Nat := 1

/-- The writable bit of an event mask (`EPOLLOUT`, 0x004 in `<sys/epoll.h>`). -/
def EPOLLOUT : Nat := 4

/-- Size of the read buffer: `#define BUF_SIZE 100` (line 225). -/
def BUF_SIZE : Nat := 100

/-- Capacity of the batch array: `#define MAXNFD 10` (line 169). -/
def MAXNFD : Nat := 10

/-! ## Data model -/

/-- The three functions a `TzEventHandler` can point to (lines 47-55). -/
inductive eventHandleFunc where
  | handlerImpl
  | read_handlerImpl
  | send_handlerImpl
  deriving DecidableEq, Repr

/-- Record `struct tzEventHandler` (lines 41-45): callback, counter address, descriptor. -/
structure TzEventHandler where
  event_handler_func : eventHandleFunc
  ptr : Nat
  fd : Int
  deriving DecidableEq, Repr

/-- Record `struct epoll_event`: the event mask and the address of the handler object
stored in `data.ptr`. -/
structure epoll_event where
  events : Nat
  data : Nat
  deriving DecidableEq, Repr

/-- The `op` argument of `epoll_ctl`. -/
inductive CtlOp where
  | EPOLL_CTL_ADD
  | EPOLL_CTL_MOD
  | EPOLL_CTL_DEL
  deriving DecidableEq, Repr

/-- One observable call made by the program, with its arguments and its result. -/
inductive Action where
  | callback (f : eventHandleFunc)
  | accept (sockfd : Int) (ret : Int)
  | read (fd : Int) (count : Nat) (ret : Int)
  | write (fd : Int) (payload : String) (count : Nat) (ret : Int)
  | epoll_ctl (op : CtlOp) (fd : Int) (ev : epoll_event) (ret : Int)
  | close (fd : Int)
  | perror (msg : String)
  | exit (status : Int)
  deriving DecidableEq, Repr

/-- What the operating system answers during the dispatch of one event, and where the
block-local objects of the accept branch are stored. -/
structure Outcome where
  accept_ret : Int
  handler_addr : Nat
  cnt_addr : Nat
  read_ret : Int
  write_ret : Int
  ctl_ok : Bool

/-- The state the event loop works on. -/
structure World where
  /-- The interest list of the epoll instance: descriptor to registered event. -/
  interest : Int → Option epoll_event
  /-- The `TzEventHandler` objects, by address. -/
  handlers : Nat → TzEventHandler
  /-- The `int` counters the handlers point to, by address. -/
  ints : Nat → Int
  /-- The batch array `recv_events`. -/
  recv_events : List epoll_event
  /-- The status passed to `exit`, once the process has terminated. -/
  exit_status : Option Int

/-! ## The kernel side -/

/-- The effect of `epoll_ctl(epoll_fd, op, fd, &ev)` on the interest list and its return
value, after epoll_ctl(2): `EPOLL_CTL_ADD` fails on a registered descriptor (EEXIST),
`EPOLL_CTL_MOD` and `EPOLL_CTL_DEL` fail on an unregistered one (ENOENT), and any request
fails when the kernel cannot carry it out (`ok = false`: ENOMEM, EBADF, ...).  A failed
request leaves the interest list unchanged. -/
def epoll_ctl (tbl : Int → Option epoll_event) (ok : Bool) (op : CtlOp) (fd : Int)
    (ev : epoll_event) : (Int → Option epoll_event) × Int :=
  match op with
  | .EPOLL_CTL_ADD =>
    if ok = true ∧ tbl fd = none then (Function.update tbl fd (some ev), 0) else (tbl, -1)
  | .EPOLL_CTL_MOD =>
    if ok = true ∧ tbl fd ≠ none then (Function.update tbl fd (some ev), 0) else (tbl, -1)
  | .EPOLL_CTL_DEL =>
    if ok = true ∧ tbl fd ≠ none then (Function.update tbl fd none, 0) else (tbl, -1)

/-- The effect of `close(fd)` on the interest list: a closed descriptor is no longer
registered (epoll(7)). -/
def close (tbl : Int → Option epoll_event) (fd : Int) : Int → Option epoll_event :=
  Function.update tbl fd none

/-! ## The program -/

/-- Function `tzError` (lines 72-76): `perror(msg); exit(1);`. -/
def tzError (msg : String) (w : World) : World × List Action :=
  ({ w with exit_status := some 1 }, [Action.perror msg, Action.exit 1])

/-- The set-up of lines 114-152: the listener's handler object is filled in and the
listening descriptor is registered for `EPOLLIN`; the result of that `epoll_ctl` is not
looked at.  `listen_handler_addr` and `cnt_addr` are the addresses of the locals
`listen_handler` and `cnt` of `main`; `handlers0` and `ints0` are the contents of the
memory before. -/
def setup (listenfd : Int) (listen_handler_addr cnt_addr : Nat) (ctl_ok : Bool)
    (handlers0 : Nat → TzEventHandler) (ints0 : Nat → Int) : World × List Action :=
  let listen_handler : TzEventHandler :=
    { fd := listenfd, event_handler_func := .handlerImpl, ptr := cnt_addr }
  let event : epoll_event := { events := EPOLLIN, data := listen_handler_addr }
  let r := epoll_ctl (fun _ => none) ctl_ok .EPOLL_CTL_ADD listenfd event
  ({ interest := r.1,
     handlers := Function.update handlers0 listen_handler_addr listen_handler,
     ints := Function.update ints0 cnt_addr 0,
     recv_events := List.replicate MAXNFD { events := 0, data := 0 },
     exit_status := none },
   [Action.epoll_ctl .EPOLL_CTL_ADD listenfd event r.2])

/-- The body of the `for` loop (lines 188-260): the dispatch of the ready event stored in
cell `iter` of the batch array. -/
def dispatch (listenfd : Int) (o : Outcome) (iter : Nat) (w : World) : World × List Action :=
  match w.recv_events[iter]? with
  | none => (w, [])
  | some ev =>
    -- lines 188-191: fetch the handler object and increment its counter
    let h := w.handlers ev.data
    let w1 : World := { w with ints := Function.update w.ints h.ptr (w.ints h.ptr + 1) }
    if ev.events &&& EPOLLIN ≠ 0 then
      if h.fd = listenfd then
        -- lines 199-220: the listener
        if o.accept_ret < 0 then
          let r := tzError "accept()" w1
          (r.1, Action.accept listenfd o.accept_ret :: r.2)
        else
          let socket_read_handler : TzEventHandler :=
            { fd := o.accept_ret, event_handler_func := .read_handlerImpl, ptr := o.cnt_addr }
          let new_event : epoll_event := { events := EPOLLIN, data := o.handler_addr }
          let r := epoll_ctl w1.interest o.ctl_ok .EPOLL_CTL_ADD o.accept_ret new_event
          ({ w1 with
               interest := r.1,
               handlers := Function.update w1.handlers o.handler_addr socket_read_handler,
               ints := Function.update w1.ints o.cnt_addr 0 },
           [Action.accept listenfd o.accept_ret,
            Action.epoll_ctl .EPOLL_CTL_ADD o.accept_ret new_event r.2])
      else
        -- lines 224-247: a peer
        if o.read_ret = 0 then
          let r := epoll_ctl w1.interest o.ctl_ok .EPOLL_CTL_DEL h.fd ev
          ({ w1 with interest := close r.1 h.fd },
           [Action.callback h.event_handler_func,
            Action.read h.fd BUF_SIZE o.read_ret,
            Action.epoll_ctl .EPOLL_CTL_DEL h.fd ev r.2,
            Action.close h.fd])
        else
          let ev' : epoll_event := { ev with events := EPOLLOUT }
          let h' : TzEventHandler := { h with event_handler_func := .send_handlerImpl }
          let r := epoll_ctl w1.interest o.ctl_ok .EPOLL_CTL_MOD h.fd ev'
          ({ w1 with
               interest := r.1,
               handlers := Function.update w1.handlers ev.data h',
               recv_events := w1.recv_events.set iter ev' },
           [Action.callback h.event_handler_func,
            Action.read h.fd BUF_SIZE o.read_ret,
            Action.epoll_ctl .EPOLL_CTL_MOD h.fd ev' r.2])
    else if ev.events &&& EPOLLOUT ≠ 0 then
      -- lines 252-257
      let ev' : epoll_event := { ev with events := EPOLLIN }
      let h' : TzEventHandler := { h with event_handler_func := .read_handlerImpl }
      let r := epoll_ctl w1.interest o.ctl_ok .EPOLL_CTL_MOD h.fd ev'
      ({ w1 with
           interest := r.1,
           handlers := Function.update w1.handlers ev.data h',
           recv_events := w1.recv_events.set iter ev' },
       [Action.callback h.event_handler_func,
        Action.write h.fd "get one msg" 11 o.write_ret,
        Action.epoll_ctl .EPOLL_CTL_MOD h.fd ev' r.2])
    else
      -- line 259: "unknown event"
      (w1, [])

/-- The `for` loop of lines 186-261, from index `iter` on; `os` holds the outcome of each
remaining iteration, so the loop runs `os.length` more times.  A call of `exit` ends the
process: nothing after it is run.  The result lists, per iteration run, the calls made. -/
def events_loop (listenfd : Int) : List Outcome → Nat → World → World × List (List Action)
  | [], _, w => (w, [])
  | o :: os, iter, w =>
    let r := dispatch listenfd o iter w
    match r.1.exit_status with
    | some _ => (r.1, [r.2])
    | none =>
      let rest := events_loop listenfd os (iter + 1) r.1
      (rest.1, r.2 :: rest.2)

/-- What `epoll_wait` answers: its return value and the cells it wrote at the front of
the batch array. -/
structure WaitResult where
  n_ready_event : Int
  cells : List epoll_event

/-- One turn of the `while(true)` loop (lines 177-261): `epoll_wait`, the check of its
result, and the `for` loop over the batch. -/
def turn (listenfd : Int) (wr : WaitResult) (os : List Outcome) (w : World) :
    World × List (List Action) :=
  if wr.n_ready_event < 0 then
    let r := tzError "epoll_wait()" w
    (r.1, [r.2])
  else
    let w1 : World :=
      { w with recv_events := wr.cells ++ w.recv_events.drop wr.cells.length }
    events_loop listenfd (os.take wr.n_ready_event.toNat) 0 w1

/-! ## The decision taken by a dispatch -/

/-- The four things a dispatch can do with an event. -/
inductive Path where
  | accept
  | read
  | write
  | none
  deriving DecidableEq, Repr

/-- The path a dispatch ran, read off the calls it made: the first `accept`, `read` or
`write` among them, `none` when there is no such call. -/
def path_of : List Action → Path
  | [] => .none
  | Action.accept _ _ :: _ => .accept
  | Action.read _ _ _ :: _ => .read
  | Action.write _ _ _ _ :: _ => .write
  | _ :: rest => path_of rest

/-- The role of a connection state. -/
inductive Role where
  | LISTENER
  | PEER
  deriving DecidableEq, Repr

/-- The interest of a connection state. -/
inductive Interest where
  | READ_INTEREST
  | WRITE_INTEREST
  deriving DecidableEq, Repr

/-- The role the program gives a handler object: the listener is the one whose descriptor
is `listenfd` (line 197). -/
def role_of (listenfd : Int) (h : TzEventHandler) : Role :=
  if h.fd = listenfd then .LISTENER else .PEER

/-- The interest recorded in a handler object: the send handler stands for
`WRITE_INTEREST` (line 240), the other callbacks for `READ_INTEREST` (lines 116, 211,
256). -/
def interest_of (h : TzEventHandler) : Interest :=
  match h.event_handler_func with
  | .send_handlerImpl => .WRITE_INTEREST
  | _ => .READ_INTEREST

/-- The decision table as the specification words it (section 4.2, step 2 b-e): accept
if readable and LISTENER; else read if readable and PEER with READ_INTEREST; else write
if writable and PEER with WRITE_INTEREST; otherwise nothing. -/
def spec_decision (readable writable : Bool) (role : Role) (interest : Interest) : Path :=
  if readable = true ∧ role = .LISTENER then .accept
  else if readable = true ∧ role = .PEER ∧ interest = .READ_INTEREST then .read
  else if writable = true ∧ role = .PEER ∧ interest = .WRITE_INTEREST then .write
  else .none

/-- The decision table the `if` cascade of lines 195-260 implements: accept if readable
and LISTENER; else read if readable; else write if writable; otherwise nothing.  The
recorded interest plays no part, and the role only separates accept from read. -/
def code_decision (readable writable : Bool) (role : Role) : Path :=
  if readable = true ∧ role = .LISTENER then .accept
  else if readable = true then .read
  else if writable = true then .write
  else .none

/-! ## Sequences of dispatches -/

/-- The world after `setup` with listening descriptor 3, the listener's handler object at
address 100 and its counter at address 101. -/
def world0 : World :=
  (setup 3 100 101 true (fun _ => { event_handler_func := .handlerImpl, ptr := 0, fd := 0 })
    (fun _ => 0)).1

/-- An outcome in which `accept` yields descriptor 5 (handler object at address 200,
counter at address 201), `read` yields 5 bytes, `write` yields 11 and the kernel carries
out the `epoll_ctl` request. -/
def outcome_ok : Outcome :=
  { accept_ret := 5, handler_addr := 200, cnt_addr := 201, read_ret := 5, write_ret := 11,
    ctl_ok := true }

/-- The world `world0` after `epoll_wait` reported the listener readable in cell 0. -/
def world0_ready : World :=
  { world0 with
    recv_events := [{ events := EPOLLIN, data := 100 }] ++ world0.recv_events.drop 1 }

/-- The world after one turn in which the listener was readable and descriptor 5 was
accepted. -/
def world1 : World :=
  (turn 3 { n_ready_event := 1, cells := [{ events := EPOLLIN, data := 100 }] }
    [outcome_ok] world0).1

/-- The world `world1` after `epoll_wait` reported descriptor 5 readable in cell 0. -/
def world2 : World :=
  { world1 with
    recv_events := [{ events := EPOLLIN, data := 200 }] ++ world1.recv_events.drop 1 }

/-- The world after the dispatch of cell 0 of `world2` with 5 bytes read: descriptor 5
is registered for `EPOLLOUT`. -/
def world3 : World := (dispatch 3 outcome_ok 0 world2).1

/-- The world `world3` after `epoll_wait` reported descriptor 5 both readable and writable
in cell 0. -/
def world3_both : World :=
  { world3 with
    recv_events :=
      [{ events := EPOLLIN ||| EPOLLOUT, data := 200 }] ++ world3.recv_events.drop 1 }

/-- The world `world0` with the listener reported writable only in cell 0. -/
def world0_writable : World :=
  { world0 with
    recv_events := [{ events := EPOLLOUT, data := 100 }] ++ world0.recv_events.drop 1 }

/-- C3, as stated, fails.  In `world3_both` descriptor 5 is a peer whose callback is the
send handler and whose registered interest is `EPOLLOUT`; the event carries both the
readable and the writable bit.  The specification's table answers write, the dispatch
runs the read path.  In `world0_writable` the event on the listener carries the writable
bit only; the table answers nothing, the dispatch writes to the listening descriptor. -/
theorem dispatch_decision_differs_from_spec_table :
    (world3_both.recv_events[0]? = some { events := 5, data := 200 } ∧
      role_of 3 (world3_both.handlers 200) = .PEER ∧
      interest_of (world3_both.handlers 200) = .WRITE_INTEREST ∧
      world3_both.interest 5 = some { events := EPOLLOUT, data := 200 } ∧
      spec_decision (5 &&& EPOLLIN != 0) (5 &&& EPOLLOUT != 0)
        (role_of 3 (world3_both.handlers 200)) (interest_of (world3_both.handlers 200)) =
        .write ∧
      path_of (dispatch 3 outcome_ok 0 world3_both).2 = .read) ∧
    (world0_writable.recv_events[0]? = some { events := 4, data := 100 } ∧
      role_of 3 (world0_writable.handlers 100) = .LISTENER ∧
      spec_decision (4 &&& EPOLLIN != 0) (4 &&& EPOLLOUT != 0)
        (role_of 3 (world0_writable.handlers 100))
        (interest_of (world0_writable.handlers 100)) = .none ∧
      (dispatch 3 outcome_ok 0 world0_writable).2 =
        [Action.callback .handlerImpl, Action.write 3 "get one msg" 11 11,
         Action.epoll_ctl .EPOLL_CTL_MOD 3 { events := EPOLLIN, data := 100 } 0]) := by
  decide

/-- C3, amended: the path a dispatch runs is given by the readiness bits and the role
alone: accept if the event is readable and the descriptor is the listener; else read if
the event is readable; else write if the event is writable; otherwise the dispatch makes
no call at all and leaves registrations, handler objects and the batch array as they
were. -/
theorem dispatch_follows_code_decision (listenfd : Int) (o : Outcome) (iter : Nat)
    (w : World) (ev : epoll_event)
    (hcell : w.recv_events[iter]? = some ev) :
    path_of (dispatch listenfd o iter w).2 =
      code_decision (ev.events &&& EPOLLIN != 0) (ev.events &&& EPOLLOUT != 0)
        (role_of listenfd (w.handlers ev.data)) ∧
    (path_of (dispatch listenfd o iter w).2 = .none →
      (dispatch listenfd o iter w).2 = [] ∧
      (dispatch listenfd o iter w).1.interest = w.interest ∧
      (dispatch listenfd o iter w).1.handlers = w.handlers ∧
      (dispatch listenfd o iter w).1.recv_events = w.recv_events ∧
      (dispatch listenfd o iter w).1.exit_status = w.exit_status) := by
  by_cases hin : ev.events &&& EPOLLIN = 0
  · by_cases hout : ev.events &&& EPOLLOUT = 0
    · simp [dispatch, hcell, hin, hout, code_decision, path_of]
    · simp [dispatch, hcell, hin, hout, code_decision, path_of]
  · by_cases hl : (w.handlers ev.data).fd = listenfd
    · by_cases hacc : o.accept_ret < 0
      · simp [dispatch, hcell, hin, hl, hacc, code_decision, path_of, role_of, tzError]
      · simp [dispatch, hcell, hin, hl, hacc, code_decision, path_of, role_of]
    · by_cases hz : o.read_ret = 0
      · simp [dispatch, hcell, hin, hl, hz, code_decision, path_of, role_of]
      · simp [dispatch, hcell, hin, hl, hz, code_decision, path_of, role_of]

/-- Witness of C3, amended: the event of `world3_both`. -/
theorem dispatch_follows_code_decision_witness :
    path_of (dispatch 3 outcome_ok 0 world3_both).2 =
      code_decision (5 &&& EPOLLIN != 0) (5 &&& EPOLLOUT != 0)
        (role_of 3 (world3_both.handlers 200)) ∧
    (path_of (dispatch 3 outcome_ok 0 world3_both).2 = .none →
      (dispatch 3 outcome_ok 0 world3_both).2 = [] ∧
      (dispatch 3 outcome_ok 0 world3_both).1.interest = world3_both.interest ∧
      (dispatch 3 outcome_ok 0 world3_both).1.handlers = world3_both.handlers ∧
      (dispatch 3 outcome_ok 0 world3_both).1.recv_events = world3_both.recv_events ∧
      (dispatch 3 outcome_ok 0 world3_both).1.exit_status = world3_both.exit_status) :=
  dispatch_follows_code_decision 3 outcome_ok 0 world3_both { events := 5, data := 200 }
    (by decide)

/-- C6: the code at a failing `read`.  In `world2` descriptor 5 is a registered peer and
readable; `read` returns -1.  The dispatch takes the branch for received data: it issues
`EPOLL_CTL_MOD` with `EPOLLOUT`, makes the send handler the callback and leaves the
descriptor registered and open (no `EPOLL_CTL_DEL`, no `close`). -/
theorem read_error_is_handled_as_data :
    (dispatch 3 { outcome_ok with read_ret := -1 } 0 world2).2 =
      [Action.callback .read_handlerImpl, Action.read 5 BUF_SIZE (-1),
       Action.epoll_ctl .EPOLL_CTL_MOD 5 { events := EPOLLOUT, data := 200 } 0] ∧
    (dispatch 3 { outcome_ok with read_ret := -1 } 0 world2).1.interest 5 =
      some { events := EPOLLOUT, data := 200 } ∧
    ((dispatch 3 { outcome_ok with read_ret := -1 } 0 world2).1.handlers 200).event_handler_func
      = .send_handlerImpl := by
  decide

/-- C8, as stated, fails.  In `world0_ready` the listener is readable and `accept` returns
-1.  The dispatch calls `perror` and `exit(1)`: the process has terminated, and the loop
over a batch of two events runs the first dispatch only. -/
theorem accept_failure_terminates_the_process :
    (dispatch 3 { outcome_ok with accept_ret := -1 } 0 world0_ready).2 =
      [Action.accept 3 (-1), Action.perror "accept()", Action.exit 1] ∧
    (dispatch 3 { outcome_ok with accept_ret := -1 } 0 world0_ready).1.exit_status =
      some 1 ∧
    (events_loop 3 [{ outcome_ok with accept_ret := -1 }, outcome_ok] 0 world0_ready).2 =
      [[Action.accept 3 (-1), Action.perror "accept()", Action.exit 1]] := by
  decide

/-- C8, amended: a readable event on the listening descriptor whose `accept` returns a
negative result makes the dispatch report the failure with `perror("accept()")` and end
the process with `exit(1)`; no later event of the batch is dispatched, and no
registration, handler object or batch cell is changed. -/
theorem accept_failure_reports_and_exits (listenfd : Int) (o : Outcome) (os : List Outcome)
    (iter : Nat) (w : World) (ev : epoll_event)
    (hcell : w.recv_events[iter]? = some ev)
    (hin : ev.events &&& EPOLLIN ≠ 0)
    (hlisten : (w.handlers ev.data).fd = listenfd)
    (hneg : o.accept_ret < 0) :
    (dispatch listenfd o iter w).2 =
      [Action.accept listenfd o.accept_ret, Action.perror "accept()", Action.exit 1] ∧
    (dispatch listenfd o iter w).1.exit_status = some 1 ∧
    (dispatch listenfd o iter w).1.interest = w.interest ∧
    (dispatch listenfd o iter w).1.handlers = w.handlers ∧
    (dispatch listenfd o iter w).1.recv_events = w.recv_events ∧
    (events_loop listenfd (o :: os) iter w).2 = [(dispatch listenfd o iter w).2] ∧
    (events_loop listenfd (o :: os) iter w).1.exit_status = some 1 ∧
    (events_loop listenfd (o :: os) iter w).1.interest = w.interest := by
  have h1 : (dispatch listenfd o iter w).1.exit_status = some 1 := by
    simp [dispatch, hcell, hin, hlisten, hneg, tzError]
  have h2 : (dispatch listenfd o iter w).1.interest = w.interest := by
    simp [dispatch, hcell, hin, hlisten, hneg, tzError]
  refine ⟨?_, h1, h2, ?_, ?_, ?_, ?_, ?_⟩
  · simp [dispatch, hcell, hin, hlisten, hneg, tzError]
  · simp [dispatch, hcell, hin, hlisten, hneg, tzError]
  · simp [dispatch, hcell, hin, hlisten, hneg, tzError]
  · simp [events_loop, h1]
  · simp [events_loop, h1]
  · simp [events_loop, h1, h2]

/-- Witness of C8, amended: in `world0_ready` the listener is readable and `accept`
returns -1, with one more event in the batch. -/
theorem accept_failure_reports_and_exits_witness :
    (dispatch 3 { outcome_ok with accept_ret := -1 } 0 world0_ready).2 =
      [Action.accept 3 (-1), Action.perror "accept()", Action.exit 1] ∧
    (dispatch 3 { outcome_ok with accept_ret := -1 } 0 world0_ready).1.exit_status =
      some 1 ∧
    (dispatch 3 { outcome_ok with accept_ret := -1 } 0 world0_ready).1.interest =
      world0_ready.interest ∧
    (dispatch 3 { outcome_ok with accept_ret := -1 } 0 world0_ready).1.handlers =
      world0_ready.handlers ∧
    (dispatch 3 { outcome_ok with accept_ret := -1 } 0 world0_ready).1.recv_events =
      world0_ready.recv_events ∧
    (events_loop 3 ({ outcome_ok with accept_ret := -1 } :: [outcome_ok]) 0
      world0_ready).2 =
      [(dispatch 3 { outcome_ok with accept_ret := -1 } 0 world0_ready).2] ∧
    (events_loop 3 ({ outcome_ok with accept_ret := -1 } :: [outcome_ok]) 0
      world0_ready).1.exit_status = some 1 ∧
    (events_loop 3 ({ outcome_ok with accept_ret := -1 } :: [outcome_ok]) 0
      world0_ready).1.interest = world0_ready.interest :=
  accept_failure_reports_and_exits 3 { outcome_ok with accept_ret := -1 } [outcome_ok] 0
    world0_ready { events := EPOLLIN, data := 100 } (by decide) (by decide) (by decide)
    (by decide)

/-! ## Sequences of dispatches: the interest/handler invariant -/

end TcpServer
